import Mathlib

/-!
# awesome_c_driver.c : a simulated light driver

Shallow embedding of `awesomelights_clib/awesomelights/awesome_c_driver.c`.

The C file keeps two file-scope variables, `is_on` (a `bool`) and
`brightness` (an `int`), and exposes five functions over them.  Here the two
globals become the fields of `Light`, every C function becomes a function
from the state before the call to an `Outcome`: the value returned, the state
after the call and the text written by `printf` during the call.

C `int` values are modelled by `Int`.  The driver never does arithmetic on
them (it only copies, compares with `0` and stores the constants `0` and
`255`), so no wrap-around can occur; `isCInt` singles out the values a C
caller can really pass.
-/

namespace AwesomeDriver

/-- Largest value of a 32 bit C `int`. -/
def INT_MAX : Int := 2147483647

/-- Smallest value of a 32 bit C `int`. -/
def INT_MIN : Int := -2147483648

/-- Values representable in a C `int`. -/
def isCInt (v : Int) : Prop := INT_MIN ≤ v ∧ v ≤ INT_MAX

instance (v : Int) : Decidable (isCInt v) := by
  unfold isCInt; infer_instance

/-- The two file-scope variables of the driver:
`static bool is_on` and `static int brightness`. -/
structure Light where
  is_on : Bool
  brightness : Int
deriving DecidableEq, Repr

/-- Static initialisers: `is_on = false`, `brightness = 0`. -/
def Light.init : Light := ⟨false, 0⟩

/-- What a call produces: the returned value, the globals after the call and
the strings handed to `printf`, oldest first. -/
structure Outcome (α : Type) where
  ret : α
  state : Light
  out : List String

/-- Conversion of a C `bool` to `int` (`return is_on;` in a function
returning `int`): `true` is `1`, `false` is `0`. -/
def boolToInt (b : Bool) : Int := if b then 1 else 0

/-- `int get_state() { return is_on; }` -/
def get_state (s : Light) : Outcome Int :=
  ⟨boolToInt s.is_on, s, []⟩

/-- `int get_brightness() { return brightness; }` -/
def get_brightness (s : Light) : Outcome Int :=
  ⟨s.brightness, s, []⟩

/-- `void turn_on()`: sets `is_on`, replaces a zero brightness by `255`,
then prints the brightness now stored. -/
def turn_on (s : Light) : Outcome Unit :=
  let s1 : Light := { s with is_on := true }
  let s2 : Light := if s1.brightness = 0 then { s1 with brightness := 255 } else s1
  ⟨(), s2, ["C Driver: Light turned ON. Brightness: " ++ toString s2.brightness ++ "\n"]⟩

/-- `void turn_off()`: clears `is_on`, zeroes `brightness`, prints a line. -/
def turn_off (s : Light) : Outcome Unit :=
  let s1 : Light := { s with is_on := false }
  let s2 : Light := { s1 with brightness := 0 }
  ⟨(), s2, ["C Driver: Light turned OFF.\n"]⟩

/-- `void set_brightness(int value)`: a positive value is stored and switches
the light on; any other value calls `turn_off()`. -/
def set_brightness (value : Int) (s : Light) : Outcome Unit :=
  if value > 0 then
    let s1 : Light := { s with is_on := true }
    let s2 : Light := { s1 with brightness := value }
    ⟨(), s2, ["C Driver: Brightness set to " ++ toString s2.brightness ++ ".\n"]⟩
  else
    turn_off s

/-- The state changing entry points a caller can invoke. -/
inductive Call where
  | turn_on : Call
  | turn_off : Call
  | set_brightness (value : Int) : Call
deriving DecidableEq, Repr

/-- Performs one call. -/
def Call.exec : Call → Light → Outcome Unit
  | .turn_on, s => AwesomeDriver.turn_on s
  | .turn_off, s => AwesomeDriver.turn_off s
  | .set_brightness v, s => AwesomeDriver.set_brightness v s

/-- State after a sequence of calls, performed left to right. -/
def run : List Call → Light → Light
  | [], s => s
  | c :: cs, s => run cs (c.exec s).state

/-- Arguments handed to `set_brightness` in a sequence of calls. -/
def setArgs : List Call → List Int
  | [] => []
  | .set_brightness v :: cs => v :: setArgs cs
  | _ :: cs => setArgs cs

/-- What a caller sees through the two getters: `(get_state(), get_brightness())`. -/
def observe (s : Light) : Int × Int :=
  ((get_state s).ret, (get_brightness (get_state s).state).ret)

/-- The observations made before the first call and after each call of a
sequence. -/
def trace : List Call → Light → List (Int × Int)
  | [], s => [observe s]
  | c :: cs, s => observe s :: trace cs (c.exec s).state

/-! ## Basic facts shared by the proofs -/

theorem turn_off_state (s : Light) : (turn_off s).state = ⟨false, 0⟩ := rfl

theorem set_brightness_pos_state (s : Light) (v : Int) (h : 0 < v) :
    (set_brightness v s).state = ⟨true, v⟩ := by
  simp [set_brightness, h]

theorem set_brightness_nonpos (s : Light) (v : Int) (h : v ≤ 0) :
    set_brightness v s = turn_off s := by
  simp [set_brightness, Int.not_lt.mpr h]

/-! ## Contract of the single operations -/

/-- C1: after `set_brightness(v)` with `v` positive (every `v >= 1`, hence every
`int` from 1 to `INT_MAX`, also above 255) `get_brightness()` returns exactly
`v`, unclamped, and `get_state()` returns 1, whatever the state before. -/
theorem set_brightness_positive_stored (s : Light) (v : Int) (hpos : 1 ≤ v) :
    (get_brightness (set_brightness v s).state).ret = v ∧
      (get_state (set_brightness v s).state).ret = 1 := by
  have h : 0 < v := hpos
  rw [set_brightness_pos_state s v h]
  exact ⟨rfl, rfl⟩

/-- Instance of the above at `v = 300`, from the initial state. -/
theorem set_brightness_positive_stored_witness :
    (1 : Int) ≤ 300 ∧ isCInt 300 ∧
      (get_brightness (set_brightness 300 ⟨false, 0⟩).state).ret = 300 ∧
      (get_state (set_brightness 300 ⟨false, 0⟩).state).ret = 1 :=
  ⟨by decide, by decide, set_brightness_positive_stored ⟨false, 0⟩ 300 (by decide)⟩

/-- C2: `set_brightness(v)` with `v <= 0` behaves exactly as `turn_off()`:
same state afterwards (and same output), `get_state()` returns 0 and
`get_brightness()` returns 0. -/
theorem set_brightness_nonpositive_off (s : Light) (v : Int) (h : v ≤ 0) :
    (set_brightness v s).state = (turn_off s).state ∧
      (set_brightness v s).out = (turn_off s).out ∧
      (get_state (set_brightness v s).state).ret = 0 ∧
      (get_brightness (set_brightness v s).state).ret = 0 := by
  rw [set_brightness_nonpos s v h]
  exact ⟨rfl, rfl, rfl, rfl⟩

/-- Instance of the above at `v = INT_MIN`, from a lit state. -/
theorem set_brightness_nonpositive_off_witness :
    (-2147483648 : Int) ≤ 0 ∧
      (set_brightness (-2147483648) ⟨true, 77⟩).state = (turn_off ⟨true, 77⟩).state ∧
      (set_brightness (-2147483648) ⟨true, 77⟩).out = (turn_off ⟨true, 77⟩).out ∧
      (get_state (set_brightness (-2147483648) ⟨true, 77⟩).state).ret = 0 ∧
      (get_brightness (set_brightness (-2147483648) ⟨true, 77⟩).state).ret = 0 :=
  ⟨by decide, set_brightness_nonpositive_off ⟨true, 77⟩ (-2147483648) (by decide)⟩

/-- C3: from a state whose brightness is 0 (light on or off), `turn_on()`
ends with `is_on = true` and `brightness = 255`. -/
theorem turn_on_zero_brightness (s : Light) (h : s.brightness = 0) :
    (turn_on s).state.is_on = true ∧ (turn_on s).state.brightness = 255 := by
  simp [turn_on, h]

/-- Instance of the above at the state (on, 0). -/
theorem turn_on_zero_brightness_witness :
    (⟨true, 0⟩ : Light).brightness = 0 ∧
      (turn_on ⟨true, 0⟩).state.is_on = true ∧
      (turn_on ⟨true, 0⟩).state.brightness = 255 :=
  ⟨rfl, turn_on_zero_brightness ⟨true, 0⟩ rfl⟩

/-- C4: from a state whose brightness is not 0, `turn_on()` keeps the
brightness and ends with `is_on = true`. -/
theorem turn_on_nonzero_brightness (s : Light) (h : s.brightness ≠ 0) :
    (turn_on s).state.brightness = s.brightness ∧ (turn_on s).state.is_on = true := by
  simp [turn_on, h]

/-- Instance of the above at the state (off, 10). -/
theorem turn_on_nonzero_brightness_witness :
    (⟨false, 10⟩ : Light).brightness ≠ 0 ∧
      (turn_on ⟨false, 10⟩).state.brightness = (⟨false, 10⟩ : Light).brightness ∧
      (turn_on ⟨false, 10⟩).state.is_on = true :=
  ⟨by decide, turn_on_nonzero_brightness ⟨false, 10⟩ (by decide)⟩

/-- C5: from every state, `turn_off()` ends with `is_on = false` and
`brightness = 0`. -/
theorem turn_off_always_off (s : Light) :
    (turn_off s).state.is_on = false ∧ (turn_off s).state.brightness = 0 :=
  ⟨rfl, rfl⟩

/-! ## Range of the stored brightness -/

/-- Brightness after a sequence of calls from any state: the starting value,
one of the constants `0` and `255`, or a positive `set_brightness` argument. -/
theorem run_brightness_cases (calls : List Call) (s : Light) :
    (run calls s).brightness = s.brightness ∨ (run calls s).brightness = 0 ∨
      (run calls s).brightness = 255 ∨
      (0 < (run calls s).brightness ∧ (run calls s).brightness ∈ setArgs calls) := by
  induction calls generalizing s with
  | nil => exact Or.inl rfl
  | cons c cs ih =>
    cases c with
    | turn_on =>
      have hstep : (Call.turn_on.exec s).state.brightness = s.brightness ∨
          (Call.turn_on.exec s).state.brightness = 255 := by
        by_cases hb : s.brightness = 0 <;> simp [Call.exec, turn_on, hb]
      rcases ih (Call.turn_on.exec s).state with h | h | h | h
      · rcases hstep with h2 | h2
        · exact Or.inl (by simpa [run, h2] using h)
        · exact Or.inr (Or.inr (Or.inl (by simpa [run, h2] using h)))
      · exact Or.inr (Or.inl (by simpa [run] using h))
      · exact Or.inr (Or.inr (Or.inl (by simpa [run] using h)))
      · exact Or.inr (Or.inr (Or.inr (by simpa [run, setArgs] using h)))
    | turn_off =>
      rcases ih (Call.turn_off.exec s).state with h | h | h | h
      · exact Or.inr (Or.inl (by simpa [run, Call.exec, turn_off] using h))
      · exact Or.inr (Or.inl (by simpa [run] using h))
      · exact Or.inr (Or.inr (Or.inl (by simpa [run] using h)))
      · exact Or.inr (Or.inr (Or.inr (by simpa [run, setArgs] using h)))
    | set_brightness v =>
      rcases ih ((Call.set_brightness v).exec s).state with h | h | h | h
      · by_cases hv : 0 < v
        · have h2 : (run (Call.set_brightness v :: cs) s).brightness = v := by
            simpa [run, Call.exec, set_brightness_pos_state s v hv] using h
          exact Or.inr (Or.inr (Or.inr ⟨by omega, by simp [setArgs, h2]⟩))
        · have h2 : (run (Call.set_brightness v :: cs) s).brightness = 0 := by
            simpa [run, Call.exec, set_brightness_nonpos s v (by omega), turn_off] using h
          exact Or.inr (Or.inl h2)
      · exact Or.inr (Or.inl (by simpa [run] using h))
      · exact Or.inr (Or.inr (Or.inl (by simpa [run] using h)))
      · refine Or.inr (Or.inr (Or.inr ⟨by simpa [run] using h.1, ?_⟩))
        have h2 : (run (Call.set_brightness v :: cs) s).brightness ∈ setArgs cs := by
          simpa [run] using h.2
        simp [setArgs, h2]

/-- C6, as the code has it: after any sequence of `turn_on`, `turn_off` and
`set_brightness(v)` calls from the initial state the brightness returned by
`get_brightness()` is never negative, and it lies in 0..255 unless it is an
argument above 255 that the sequence passed to `set_brightness`. -/
theorem reachable_brightness_range (calls : List Call) :
    0 ≤ (get_brightness (run calls Light.init)).ret ∧
      ((get_brightness (run calls Light.init)).ret ≤ 255 ∨
        (255 < (get_brightness (run calls Light.init)).ret ∧
          (get_brightness (run calls Light.init)).ret ∈ setArgs calls)) := by
  have hb : (get_brightness (run calls Light.init)).ret
      = (run calls Light.init).brightness := rfl
  have h0 : Light.init.brightness = 0 := rfl
  rw [hb]
  rcases run_brightness_cases calls Light.init with h | h | h | h
  · exact ⟨by omega, Or.inl (by omega)⟩
  · exact ⟨by omega, Or.inl (by omega)⟩
  · exact ⟨by omega, Or.inl (by omega)⟩
  · refine ⟨by omega, ?_⟩
    by_cases hle : (run calls Light.init).brightness ≤ 255
    · exact Or.inl hle
    · exact Or.inr ⟨by omega, h.2⟩

/-- C6 as stated fails: `set_brightness(300)` from the initial state is a
reachable state whose brightness, 300, is outside 0..255. -/
theorem reachable_brightness_above_255 :
    (get_brightness (run [Call.set_brightness 300] Light.init)).ret = 300 ∧
      ¬ (0 ≤ (get_brightness (run [Call.set_brightness 300] Light.init)).ret ∧
        (get_brightness (run [Call.set_brightness 300] Light.init)).ret ≤ 255) := by
  decide

/-! ## Arguments outside 0..255 -/

/-- C7, as the code has it: `set_brightness(v)` is total, so an argument
below 0 or above 255 is never rejected; a negative argument leaves the light
off with brightness 0, an argument above 255 leaves it on with brightness
`v`, in both cases whatever the state before. -/
theorem set_brightness_out_of_range (s : Light) (v : Int) (h : v < 0 ∨ 255 < v) :
    (set_brightness v s).state = if v < 0 then ⟨false, 0⟩ else ⟨true, v⟩ := by
  rcases h with h | h
  · rw [if_pos h, set_brightness_nonpos s v (by omega), turn_off_state]
  · rw [if_neg (by omega), set_brightness_pos_state s v (by omega)]

/-- Instances of the above at `v = -5` and at `v = 256`. -/
theorem set_brightness_out_of_range_witness :
    (((-5 : Int) < 0 ∨ (255 : Int) < -5) ∧
        (set_brightness (-5) ⟨true, 10⟩).state = ⟨false, 0⟩) ∧
      (((256 : Int) < 0 ∨ (255 : Int) < 256) ∧
        (set_brightness 256 ⟨false, 0⟩).state = ⟨true, 256⟩) :=
  ⟨⟨by decide, set_brightness_out_of_range ⟨true, 10⟩ (-5) (by decide)⟩,
    ⟨by decide, set_brightness_out_of_range ⟨false, 0⟩ 256 (by decide)⟩⟩

/-- C7 as stated fails: 1000 is outside 0..255, and `set_brightness(1000)`
from the off state leaves the light on with brightness 1000, not off. -/
theorem set_brightness_large_not_off :
    ((1000 : Int) < 0 ∨ (255 : Int) < 1000) ∧
      (set_brightness 1000 ⟨false, 0⟩).state = ⟨true, 1000⟩ ∧
      ¬ ((set_brightness 1000 ⟨false, 0⟩).state.is_on = false ∧
        (set_brightness 1000 ⟨false, 0⟩).state.brightness = 0) := by
  decide

/-! ## The getters -/

/-- C8: `get_state()` and `get_brightness()` leave `is_on` and `brightness`
as they were and print nothing; `get_brightness()` returns the stored
brightness; `get_state()` returns 1 when `is_on` is true, 0 when it is false,
and no other value. -/
theorem getters_pure (s : Light) :
    ((get_state s).state = s ∧ (get_state s).out = []) ∧
      ((get_brightness s).state = s ∧ (get_brightness s).out = []) ∧
      (get_brightness s).ret = s.brightness ∧
      ((get_state s).ret = 1 ↔ s.is_on = true) ∧
      ((get_state s).ret = 0 ↔ s.is_on = false) ∧
      ((get_state s).ret = 0 ∨ (get_state s).ret = 1) := by
  refine ⟨⟨rfl, rfl⟩, ⟨rfl, rfl⟩, rfl, ?_, ?_, ?_⟩ <;>
    cases h : s.is_on <;> simp [get_state, boolToInt, h]

/-! ## Scenario and idempotence -/

/-- C9: from the initial state, `turn_on(); set_brightness(10); turn_off();
set_brightness(-5)` shows, through `get_state()` and `get_brightness()`, the
states (off, 0), (on, 255), (on, 10), (off, 0), (off, 0), in this order. -/
theorem scenario_trace :
    trace [Call.turn_on, Call.set_brightness 10, Call.turn_off, Call.set_brightness (-5)]
        Light.init
      = [(0, 0), (1, 255), (1, 10), (0, 0), (0, 0)] := by
  decide

/-- C10: `turn_off()` is idempotent; calling it twice in a row ends in the
same state as calling it once. -/
theorem turn_off_idempotent (s : Light) :
    (turn_off (turn_off s).state).state = (turn_off s).state :=
  rfl

/-! ## Initial state and the link between the flag and the brightness -/

/-- C11: before any call, `is_on` is false and `brightness` is 0, so
`get_state()` returns 0 and `get_brightness()` returns 0. -/
theorem initial_state_off :
    (run [] Light.init).is_on = false ∧ (run [] Light.init).brightness = 0 ∧
      (get_state (run [] Light.init)).ret = 0 ∧
      (get_brightness (run [] Light.init)).ret = 0 :=
  ⟨rfl, rfl, rfl, rfl⟩

/-- One call keeps the link "on exactly when the brightness is positive",
provided the brightness is not negative, and keeps it non-negative. -/
theorem exec_keeps_on_iff_pos (c : Call) (s : Light)
    (h : (s.is_on = true ↔ 0 < s.brightness) ∧ 0 ≤ s.brightness) :
    ((c.exec s).state.is_on = true ↔ 0 < (c.exec s).state.brightness) ∧
      0 ≤ (c.exec s).state.brightness := by
  cases c with
  | turn_on =>
    by_cases hb : s.brightness = 0
    · simp [Call.exec, turn_on, hb]
    · have hpos : 0 < s.brightness := by omega
      simp [Call.exec, turn_on, hb, hpos, h.2]
  | turn_off => simp [Call.exec, turn_off]
  | set_brightness v =>
    by_cases hv : 0 < v
    · simp [Call.exec, set_brightness_pos_state s v hv, hv, Int.le_of_lt hv]
    · simp [Call.exec, set_brightness_nonpos s v (by omega), turn_off]

/-- The link holds after any sequence of calls from a state where it holds. -/
theorem run_keeps_on_iff_pos (calls : List Call) (s : Light)
    (h : (s.is_on = true ↔ 0 < s.brightness) ∧ 0 ≤ s.brightness) :
    ((run calls s).is_on = true ↔ 0 < (run calls s).brightness) ∧
      0 ≤ (run calls s).brightness := by
  induction calls generalizing s with
  | nil => exact h
  | cons c cs ih => exact ih (c.exec s).state (exec_keeps_on_iff_pos c s h)

/-- The link holds in every state reachable from the initial state. -/
theorem reachable_on_iff_pos (calls : List Call) :
    ((run calls Light.init).is_on = true ↔ 0 < (run calls Light.init).brightness) ∧
      0 ≤ (run calls Light.init).brightness :=
  run_keeps_on_iff_pos calls Light.init (by decide)

/-- C12: in every state reachable from the initial state by `turn_on`,
`turn_off` and `set_brightness(v)` calls with arbitrary arguments, `is_on` is
true exactly when the brightness is positive, `is_on` is false exactly when
the brightness is 0 (so off implies brightness 0), and the brightness is never
negative. -/
theorem reachable_on_iff_brightness_positive (calls : List Call) :
    ((run calls Light.init).is_on = true ↔ 0 < (run calls Light.init).brightness) ∧
      ((run calls Light.init).is_on = false ↔ (run calls Light.init).brightness = 0) ∧
      0 ≤ (run calls Light.init).brightness := by
  obtain ⟨hiff, hnn⟩ := reachable_on_iff_pos calls
  refine ⟨hiff, ?_, hnn⟩
  constructor
  · intro hoff
    have hnp : ¬ 0 < (run calls Light.init).brightness := by
      intro hp
      rw [hiff.mpr hp] at hoff
      exact Bool.noConfusion hoff
    omega
  · intro hz
    cases hon : (run calls Light.init).is_on with
    | false => rfl
    | true =>
      have hp := hiff.mp hon
      omega

/-! ## Forgetting the prior state -/

/-- C14: switching off and on again does not bring the old brightness back;
from every state `turn_off()` then `turn_on()` ends with `is_on = true` and
`brightness = 255`. -/
theorem off_on_cycle_default (s : Light) :
    (turn_on (turn_off s).state).state.is_on = true ∧
      (turn_on (turn_off s).state).state.brightness = 255 :=
  ⟨rfl, rfl⟩

/-- C15: the state after `set_brightness(v)` does not depend on the state
before, so for all `a` and `b`, `set_brightness(a)` followed by
`set_brightness(b)` ends in the state of `set_brightness(b)` alone. -/
theorem set_brightness_forgets_prior (v a b : Int) (s1 s2 s : Light) :
    (set_brightness v s1).state = (set_brightness v s2).state ∧
      (set_brightness b (set_brightness a s).state).state = (set_brightness b s).state := by
  have key : ∀ (w : Int) (t u : Light),
      (set_brightness w t).state = (set_brightness w u).state := by
    intro w t u
    by_cases hw : 0 < w
    · rw [set_brightness_pos_state t w hw, set_brightness_pos_state u w hw]
    · rw [set_brightness_nonpos t w (by omega), set_brightness_nonpos u w (by omega),
        turn_off_state, turn_off_state]
  exact ⟨key v s1 s2, key b _ s⟩

/-! ## Brightness range under arguments of at most 255 -/

/-- One call keeps the brightness in 0..255 when a `set_brightness` argument,
if it is one, is at most 255. -/
theorem exec_keeps_range (c : Call) (s : Light)
    (hs : 0 ≤ s.brightness ∧ s.brightness ≤ 255)
    (hc : ∀ v ∈ setArgs [c], v ≤ 255) :
    0 ≤ (c.exec s).state.brightness ∧ (c.exec s).state.brightness ≤ 255 := by
  cases c with
  | turn_on =>
    by_cases hb : s.brightness = 0
    · simp [Call.exec, turn_on, hb]
    · simpa [Call.exec, turn_on, hb] using hs
  | turn_off => simp [Call.exec, turn_off]
  | set_brightness v =>
    have hv255 : v ≤ 255 := hc v (by simp [setArgs])
    by_cases hv : 0 < v
    · simp [Call.exec, set_brightness_pos_state s v hv, hv255, Int.le_of_lt hv]
    · simp [Call.exec, set_brightness_nonpos s v (by omega), turn_off]

/-- Every observation along a sequence of calls shows a brightness in 0..255
when the start state does and no `set_brightness` argument exceeds 255. -/
theorem trace_keeps_range (calls : List Call) (s : Light)
    (hs : 0 ≤ s.brightness ∧ s.brightness ≤ 255)
    (hc : ∀ v ∈ setArgs calls, v ≤ 255) :
    ∀ o ∈ trace calls s, 0 ≤ o.2 ∧ o.2 ≤ 255 := by
  induction calls generalizing s with
  | nil =>
    intro o ho
    have : o = observe s := by simpa [trace] using ho
    subst this
    exact hs
  | cons c cs ih =>
    intro o ho
    have hsplit : o = observe s ∨ o ∈ trace cs (c.exec s).state := by
      simpa [trace] using ho
    rcases hsplit with h | h
    · subst h
      exact hs
    · have hhead : ∀ v ∈ setArgs [c], v ≤ 255 := by
        intro v hv
        apply hc v
        cases c <;> simp_all [setArgs]
      have htail : ∀ v ∈ setArgs cs, v ≤ 255 := by
        intro v hv
        apply hc v
        cases c <;> simp_all [setArgs]
      exact ih (c.exec s).state (exec_keeps_range c s hs hhead) htail o h

/-- C13: when every argument passed to `set_brightness` in a sequence of
`turn_on`, `turn_off` and `set_brightness` calls is at most 255 (zero and
negative arguments included), every state met along the sequence from the
initial state, the first and the last included, shows through the getters a
brightness in 0..255. -/
theorem bounded_args_brightness_range (calls : List Call)
    (hargs : ∀ v ∈ setArgs calls, v ≤ 255) :
    ∀ o ∈ trace calls Light.init, 0 ≤ o.2 ∧ o.2 ≤ 255 :=
  trace_keeps_range calls Light.init (by decide) hargs

/-- Instance of the above for `turn_on(); set_brightness(255);
set_brightness(-7); set_brightness(40); turn_off()`. -/
theorem bounded_args_brightness_range_witness :
    (∀ v ∈ setArgs [Call.turn_on, Call.set_brightness 255, Call.set_brightness (-7),
        Call.set_brightness 40, Call.turn_off], v ≤ 255) ∧
      (∀ o ∈ trace [Call.turn_on, Call.set_brightness 255, Call.set_brightness (-7),
        Call.set_brightness 40, Call.turn_off] Light.init, 0 ≤ o.2 ∧ o.2 ≤ 255) :=
  ⟨by decide, bounded_args_brightness_range _ (by decide)⟩

/-! ## Idempotence of `turn_on` -/

/-- C16: `turn_on()` is idempotent from every state, brightness 0 included;
and in a state reachable from the initial state in which `is_on` is already
true, `turn_on()` changes neither `is_on` nor `brightness`. -/
theorem turn_on_idempotent (s : Light) (calls : List Call) :
    (turn_on (turn_on s).state).state = (turn_on s).state ∧
      ((run calls Light.init).is_on = true →
        (turn_on (run calls Light.init)).state = run calls Light.init) := by
  constructor
  · by_cases hb : s.brightness = 0 <;> simp [turn_on, hb]
  · intro hon
    have hpos := (reachable_on_iff_pos calls).1.mp hon
    have hne : (run calls Light.init).brightness ≠ 0 := by omega
    generalize run calls Light.init = r at hon hne
    obtain ⟨flag, b⟩ := r
    simp only at hon hne
    subst hon
    simp [turn_on, hne]

/-- Instance of the above at the state (on, 0) and at the state reached by
`set_brightness(10)`. -/
theorem turn_on_idempotent_witness :
    (turn_on (turn_on ⟨true, 0⟩).state).state = (turn_on ⟨true, 0⟩).state ∧
      (run [Call.set_brightness 10] Light.init).is_on = true ∧
      (turn_on (run [Call.set_brightness 10] Light.init)).state
        = run [Call.set_brightness 10] Light.init :=
  ⟨(turn_on_idempotent ⟨true, 0⟩ [Call.set_brightness 10]).1, by decide,
    (turn_on_idempotent ⟨true, 0⟩ [Call.set_brightness 10]).2 (by decide)⟩

/-! ## Diagnostic output of `turn_on` -/

/-- C17: `turn_on()` prints exactly one message, and the number in it is the
brightness stored after the call: 255 when the brightness was 0 before, the
old brightness otherwise.  From a state with brightness 0 the message
therefore reads 255 and not 0. -/
theorem turn_on_reports_resulting_brightness (s : Light) (flag : Bool) :
    (turn_on s).out.length = 1 ∧
      (turn_on s).out =
        ["C Driver: Light turned ON. Brightness: "
          ++ toString (turn_on s).state.brightness ++ "\n"] ∧
      (turn_on s).state.brightness = (if s.brightness = 0 then 255 else s.brightness) ∧
      (turn_on ⟨flag, 0⟩).out = ["C Driver: Light turned ON. Brightness: 255\n"] ∧
      (turn_on ⟨flag, 0⟩).out ≠ ["C Driver: Light turned ON. Brightness: 0\n"] := by
  refine ⟨rfl, rfl, ?_, ?_, ?_⟩
  · by_cases hb : s.brightness = 0 <;> simp [turn_on, hb]
  · cases flag <;> decide
  · cases flag <;> decide

end AwesomeDriver
